import Mathlib

/-!
Shallow embedding of `sync.py` from the `hubspot-sync` repository.

The script reconciles FIRST competition events (fetched from an Elasticsearch
index) with HubSpot marketing-event records.  Pure data transformations are
embedded as Lean functions; Python exceptions become `Option` results
(`none` models "an exception propagates"); the in-place mutation of the
`first_events` list inside `process_events` becomes explicit state passing;
the orchestration order of `main` becomes a trace of attempted steps.

External library behaviour (Python's `datetime.fromisoformat(...).timestamp()`)
is modelled as an explicit function argument `fromisoformat : String → Option Int`
returning epoch milliseconds on success and `none` on a parse failure
(in Python: a raised `ValueError`).
-/

/-- A custom-property value in a payload sent to HubSpot.  Python dict values at
these positions are either strings or the raw integer `event_season`. -/
inductive PVal where
  | s (v : String)
  | i (v : Int)
deriving DecidableEq, Repr

/-- One entry of the `customProperties` list of an outgoing payload
(`{'name': ..., 'value': ...}` in `sync.py`). -/
structure CustomProp where
  name : String
  value : PVal
deriving DecidableEq, Repr

/-- The payload dict built by `get_elastic_search_events` / mutated by
`process_events`.  `objectId` is `none` for freshly normalized events: the
Python dict has no `objectId` key until `process_events` adds one. -/
structure FirstEventPayload where
  eventOrganizer : String
  externalAccountId : String
  externalEventId : String
  eventName : String
  eventType : String
  startDateTime : Int
  endDateTime : Int
  customProperties : List CustomProp
  objectId : Option String := none
deriving DecidableEq, Repr

/-- A raw `_source` hit from the Elasticsearch events index, with the fields
`sync.py` reads.  `date_start`/`date_end` are `Option` because the raw feed
may omit them (in Python, `e['date_start']` then raises `KeyError`).
`event_express_url`, `event_deeplink_url` and `event_address2` exist in the
external feed schema but are never read by `sync.py`; they are carried here
only so that spec-level statements about them can be expressed. -/
structure RawESEvent where
  event_type : String
  event_season : Int
  event_code : String
  event_name : String
  date_start : Option String
  date_end : Option String
  event_venue : String
  event_city : String
  event_postalcode : String
  event_address1 : String
  event_address2 : String
  event_express_url : String
  event_deeplink_url : String
deriving DecidableEq, Repr

/-- The per-record body of the list comprehension in `get_elastic_search_events`
(`sync.py` lines 224-265).  `none` models the comprehension raising
(`KeyError` on a missing date field, `ValueError` from `fromisoformat`). -/
def normalizeESEvent (fromisoformat : String → Option Int) (e : RawESEvent) :
    Option FirstEventPayload :=
  match e.date_start, e.date_end with
  | some ds, some de =>
    match fromisoformat ds, fromisoformat de with
    | some startMs, some endMs =>
      some {
        eventOrganizer := "FIRST in Alabama",
        externalAccountId := e.event_type ++ toString e.event_season ++ e.event_code,
        externalEventId := e.event_type ++ toString e.event_season ++ e.event_code,
        eventName := e.event_name,
        eventType := e.event_type,
        startDateTime := startMs,
        endDateTime := endMs,
        customProperties := [
          ⟨"event_code", PVal.s e.event_code⟩,
          ⟨"event_venue", PVal.s e.event_venue⟩,
          ⟨"event_season_year", PVal.i e.event_season⟩,
          ⟨"event_volunteer_url", PVal.s ""⟩,
          ⟨"event_city", PVal.s e.event_city⟩,
          ⟨"event_postal_code", PVal.s e.event_postalcode⟩,
          ⟨"event_address", PVal.s e.event_address1⟩ ],
        objectId := none }
    | _, _ => none
  | _, _ => none

/-- The whole list comprehension of `get_elastic_search_events`: a Python list
comprehension raises as soon as one record raises, so the result is `none`
(no list at all) unless every record normalizes. -/
def normalizeAll (fromisoformat : String → Option Int) :
    List RawESEvent → Option (List FirstEventPayload)
  | [] => some []
  | e :: rest =>
    match normalizeESEvent fromisoformat e, normalizeAll fromisoformat rest with
    | some p, some ps => some (p :: ps)
    | _, _ => none

/-- `get_elastic_search_events` (`sync.py` lines 156-265), restricted to its
pure part: the HTTP fetch is an external collaborator, so the function takes
the raw hit list as input and performs the normalization mapping. -/
def get_elastic_search_events (fromisoformat : String → Option Int)
    (events : List RawESEvent) : Option (List FirstEventPayload) :=
  normalizeAll fromisoformat events

/-- Look up a custom property value in an outgoing payload (first entry with
the given name), used to state properties of the normalized output. -/
def lookupCustomProp (props : List CustomProp) (key : String) : Option PVal :=
  (props.find? (fun p => p.name == key)).map (fun p => p.value)

/-- One entry of a HubSpot SDK event's `custom_properties` (attributes
`.name` / `.value`, both strings on the HubSpot side). -/
structure PropEntry where
  name : String
  value : String
deriving DecidableEq, Repr

/-- A HubSpot marketing-event record as returned by `get_known_events`
(the SDK attributes `sync.py` reads).  `custom_properties` may be `None`. -/
structure HubSpotEvent where
  event_type : String
  custom_properties : Option (List PropEntry)
  external_event_id : String
  object_id : String
  event_organizer : String
deriving DecidableEq, Repr

/-- `get_custom_property` (`sync.py` lines 92-96): a `None` bag gives `None`;
`match = [entry.value for entry in custom_properties if entry.name == key]`;
`if len(match) != 1: return None`; else `match[0]`.  The value projection is
taken after the singleton test here, which commutes with the comprehension's
projection. -/
def get_custom_property (custom_properties : Option (List PropEntry))
    (key : String) : Option String :=
  match custom_properties with
  | none => none
  | some props =>
    match props.filter (fun entry => entry.name == key) with
    | [entry] => some entry.value
    | _ => none

/-- The season-scope filter at the top of `process_events`
(`sync.py` lines 105-111): FRC records for `frc_season_year`, non-FRC records
for `frc_season_year - 1`, compared against the string-valued
`event_season_year` custom property. -/
def existingHubspotEvents (hubspot_events : List HubSpotEvent)
    (frc_season_year : Int) : List HubSpotEvent :=
  hubspot_events.filter (fun event =>
    (event.event_type == "FRC" &&
      get_custom_property event.custom_properties "event_season_year"
        == some (toString frc_season_year))
    || (event.event_type != "FRC" &&
      get_custom_property event.custom_properties "event_season_year"
        == some (toString (frc_season_year - 1))))

/-- The update payload built for a matched pair (`sync.py` lines 128-131):
a deep copy of the matched source payload whose `externalEventId`, `objectId`
and `eventOrganizer` are overwritten from the existing HubSpot record. -/
def updatePayload (first_event : FirstEventPayload)
    (existing_event : HubSpotEvent) : FirstEventPayload :=
  { first_event with
      externalEventId := existing_event.external_event_id,
      objectId := some existing_event.object_id,
      eventOrganizer := existing_event.event_organizer }

/-- One iteration of the matching loop in `process_events`
(`sync.py` lines 116-134).  State = (current `first_events` list,
`events_to_update` so far).  Zero matches: `continue`.  More than one match:
report and `continue`.  Exactly one match: append the update payload and
remove the matched source event from `first_events` in place
(`first_events.remove(match[0])`, i.e. erase the first equal element). -/
def matchStep (st : List FirstEventPayload × List FirstEventPayload)
    (existing_event : HubSpotEvent) :
    List FirstEventPayload × List FirstEventPayload :=
  match st.1.filter
      (fun event => event.externalEventId == existing_event.external_event_id) with
  | [] => st
  | [first_event] =>
      (st.1.erase first_event,
       st.2 ++ [updatePayload first_event existing_event])
  | _ => st

/-- Result of `process_events`: the update payloads, the create payloads
(`deepcopy(first_events)` after the loop), and the final state of the
caller-supplied `first_events` list (mutated in place in Python). -/
structure ProcessResult where
  events_to_update : List FirstEventPayload
  events_to_create : List FirstEventPayload
  first_events_final : List FirstEventPayload
deriving DecidableEq, Repr

/-- `process_events` (`sync.py` lines 103-145), restricted to its pure part:
filter to the season scope, run the matching loop, and take whatever is left
of `first_events` as the create list.  The batch upsert itself is an external
call, represented in `mainTrace` below. -/
def process_events (first_events : List FirstEventPayload)
    (hubspot_events : List HubSpotEvent) (frc_season_year : Int) : ProcessResult :=
  let st := (existingHubspotEvents hubspot_events frc_season_year).foldl
    matchStep (first_events, [])
  { events_to_update := st.2,
    events_to_create := st.1,
    first_events_final := st.1 }

/-- The steps `main` (`sync.py` lines 268-297) attempts, in order:
read the token secret, page through HubSpot's known events, resolve the
current FIRST seasons, fetch + normalize the Elasticsearch events, run the
matching/merge logic, and submit the batch upsert. -/
inductive Step where
  | load_token
  | fetch_destination_records
  | resolve_season
  | fetch_source_events
  | reconcile
  | submit
deriving DecidableEq, Repr

/-- The results the external collaborators hand to one run of `main`:
`api_token` from the secret file (`None` on failure), the paged HubSpot
records, the season map from `fetch_first_seasons` (`None` on failure),
the raw Elasticsearch hits, and the date parser. -/
structure Env where
  api_token : Option String
  hubspot_events : List HubSpotEvent
  seasons : Option (List (String × Int))
  raw_events : List RawESEvent
  fromisoformat : String → Option Int

/-- Python dict access `seasons['FRC']` as a lookup; `none` models the
`KeyError` that crashes the run when the program code is absent. -/
def lookupSeason (seasons : List (String × Int)) (key : String) : Option Int :=
  (seasons.find? (fun s => s.1 == key)).map (fun s => s.2)

/-- The trace of steps `main` attempts in one run.  Control flow follows
`sync.py` lines 268-297 exactly: token load first (abort when `None`), then
`get_known_events`, then `fetch_first_seasons` (abort when `None`), then
`seasons['FRC']` (an absent key raises and kills the run), then
`get_elastic_search_events` (an unhandled normalization exception kills the
run; the `first_events is None` check in `main` can never fire because the
function never returns `None`), then `process_events`, whose batch upsert is
only issued when the combined payload list is non-empty. -/
def mainTrace (env : Env) : List Step :=
  match env.api_token with
  | none => [Step.load_token]
  | some _ =>
    match env.seasons with
    | none => [Step.load_token, Step.fetch_destination_records, Step.resolve_season]
    | some seasons =>
      match lookupSeason seasons "FRC" with
      | none => [Step.load_token, Step.fetch_destination_records, Step.resolve_season]
      | some frc_season =>
        match get_elastic_search_events env.fromisoformat env.raw_events with
        | none => [Step.load_token, Step.fetch_destination_records,
                   Step.resolve_season, Step.fetch_source_events]
        | some first_events =>
          let r := process_events first_events env.hubspot_events frc_season
          if 0 < (r.events_to_update ++ r.events_to_create).length then
            [Step.load_token, Step.fetch_destination_records, Step.resolve_season,
             Step.fetch_source_events, Step.reconcile, Step.submit]
          else
            [Step.load_token, Step.fetch_destination_records, Step.resolve_season,
             Step.fetch_source_events, Step.reconcile]

/-- The order in which `main` actually performs its steps. -/
def fullStepOrder : List Step :=
  [Step.load_token, Step.fetch_destination_records, Step.resolve_season,
   Step.fetch_source_events, Step.reconcile, Step.submit]

/-- Modelled from the spec: the step order the specification asserts
(§4.4: resolve_season, then fetch_source_events, then
fetch_destination_records, then reconcile, then submit), for comparison
with the order implemented by `mainTrace`. -/
def claimedStepOrder : List Step :=
  [Step.resolve_season, Step.fetch_source_events, Step.fetch_destination_records,
   Step.reconcile, Step.submit]

/-- A concrete stand-in for `datetime.fromisoformat(...).timestamp() * 1000`,
defined on the two date strings used by the concrete test records. -/
def fromisoformatFix : String → Option Int :=
  fun s =>
    if s = "2024-03-01T09:00:00" then some 1709283600000
    else if s = "2024-03-02T17:00:00" then some 1709398800000
    else none

/-- A well-formed raw Elasticsearch hit. -/
def rawGood : RawESEvent :=
  { event_type := "FRC", event_season := 2024, event_code := "ALHU",
    event_name := "Rocket City Regional",
    date_start := some "2024-03-01T09:00:00",
    date_end := some "2024-03-02T17:00:00",
    event_venue := "Von Braun Center", event_city := "Huntsville",
    event_postalcode := "35801", event_address1 := "700 Monroe St",
    event_address2 := "", event_express_url := "", event_deeplink_url := "" }

/-- A raw hit with the start date absent (in Python, `e['date_start']`
raises `KeyError`). -/
def rawBad : RawESEvent := { rawGood with event_code := "ALX", date_start := none }

/-- The normalization of `rawGood` under `fromisoformatFix`. -/
def goodPayload : FirstEventPayload :=
  { eventOrganizer := "FIRST in Alabama",
    externalAccountId := "FRC2024ALHU", externalEventId := "FRC2024ALHU",
    eventName := "Rocket City Regional", eventType := "FRC",
    startDateTime := 1709283600000, endDateTime := 1709398800000,
    customProperties := [
      ⟨"event_code", PVal.s "ALHU"⟩,
      ⟨"event_venue", PVal.s "Von Braun Center"⟩,
      ⟨"event_season_year", PVal.i 2024⟩,
      ⟨"event_volunteer_url", PVal.s ""⟩,
      ⟨"event_city", PVal.s "Huntsville"⟩,
      ⟨"event_postal_code", PVal.s "35801"⟩,
      ⟨"event_address", PVal.s "700 Monroe St"⟩ ],
    objectId := none }

/-- A raw hit carrying both a direct express URL and a legacy deeplink,
which `sync.py` never reads. -/
def rawUrls : RawESEvent :=
  { rawGood with event_express_url := "http://y", event_deeplink_url := "http://x" }

/-- The address-assembly input from §8 of the spec: venue present, both
address lines blank, city and postal code present. -/
def rawAddr : RawESEvent :=
  { rawGood with
    event_venue := "Hall A"
    event_address1 := ""
    event_address2 := ""
    event_city := "Springfield"
    event_postalcode := "12345" }

/-- The normalization of `rawAddr` under `fromisoformatFix`. -/
def addrPayload : FirstEventPayload :=
  { goodPayload with
    customProperties := [
      ⟨"event_code", PVal.s "ALHU"⟩,
      ⟨"event_venue", PVal.s "Hall A"⟩,
      ⟨"event_season_year", PVal.i 2024⟩,
      ⟨"event_volunteer_url", PVal.s ""⟩,
      ⟨"event_city", PVal.s "Springfield"⟩,
      ⟨"event_postal_code", PVal.s "12345"⟩,
      ⟨"event_address", PVal.s ""⟩ ] }

/-- A second raw hit with the same `(event_type, event_season, event_code)`
triple as `rawGood` but different content fields. -/
def rawDup : RawESEvent :=
  { rawGood with
    event_name := "Duplicate Listing"
    event_venue := "Different Venue" }

/-- The normalization of `rawDup` under `fromisoformatFix`. -/
def dupPayload : FirstEventPayload :=
  { goodPayload with
    eventName := "Duplicate Listing",
    customProperties := [
      ⟨"event_code", PVal.s "ALHU"⟩,
      ⟨"event_venue", PVal.s "Different Venue"⟩,
      ⟨"event_season_year", PVal.i 2024⟩,
      ⟨"event_volunteer_url", PVal.s ""⟩,
      ⟨"event_city", PVal.s "Huntsville"⟩,
      ⟨"event_postal_code", PVal.s "35801"⟩,
      ⟨"event_address", PVal.s "700 Monroe St"⟩ ] }

/-- An existing HubSpot record whose external event id matches `goodPayload`. -/
def hsMatching : HubSpotEvent :=
  { event_type := "FRC",
    custom_properties := some [⟨"event_season_year", "2024"⟩],
    external_event_id := "FRC2024ALHU",
    object_id := "obj-77",
    event_organizer := "FIRST in Alabama (HubSpot)" }

/-- A fully successful environment for one run of `main`. -/
def envRun : Env :=
  { api_token := some "token-abc", hubspot_events := [],
    seasons := some [("FRC", 2024)], raw_events := [rawGood],
    fromisoformat := fromisoformatFix }

/-- Helper: a successfully normalized payload's external event id is the
concatenation of program code, season year and event code of its raw record. -/
theorem normalizeESEvent_extId (fromisoformat : String → Option Int)
    (e : RawESEvent) (p : FirstEventPayload)
    (h : normalizeESEvent fromisoformat e = some p) :
    p.externalEventId = e.event_type ++ toString e.event_season ++ e.event_code := by
  unfold normalizeESEvent at h
  split at h
  · split at h
    · injection h with h
      subst h
      rfl
    · cases h
  · cases h

/-- Helper: one matching-loop iteration never adds to the source list — it is
either unchanged or loses the one matched element. -/
theorem matchStep_fst_sublist
    (st : List FirstEventPayload × List FirstEventPayload)
    (existing_event : HubSpotEvent) :
    (matchStep st existing_event).1.Sublist st.1 := by
  unfold matchStep
  split
  · exact List.Sublist.refl _
  · exact List.erase_sublist _ _
  · exact List.Sublist.refl _

/-- Helper: one matching-loop iteration preserves the total count
`|first_events| + |events_to_update|` (each pairing moves one event from the
candidate list into the update list). -/
theorem matchStep_length
    (st : List FirstEventPayload × List FirstEventPayload)
    (existing_event : HubSpotEvent) :
    (matchStep st existing_event).1.length + (matchStep st existing_event).2.length
      = st.1.length + st.2.length := by
  unfold matchStep
  split
  · rfl
  case _ first_event heq =>
    have hmem : first_event ∈ st.1 := by
      have hm : first_event ∈ st.1.filter
          (fun event => event.externalEventId == existing_event.external_event_id) := by
        rw [heq]
        exact List.mem_singleton_self first_event
      exact List.mem_of_mem_filter hm
    have hpos : 1 ≤ st.1.length := List.length_pos_of_mem hmem
    simp only [List.length_erase_of_mem hmem, List.length_append, List.length_cons,
      List.length_nil]
    omega
  · rfl

/-- Helper: the whole matching loop only removes elements from the source
list (the final list is a sublist of the initial one). -/
theorem foldl_matchStep_sublist (l : List HubSpotEvent)
    (st : List FirstEventPayload × List FirstEventPayload) :
    (l.foldl matchStep st).1.Sublist st.1 := by
  induction l generalizing st with
  | nil => exact List.Sublist.refl _
  | cons existing_event rest ih =>
    exact (ih (matchStep st existing_event)).trans
      (matchStep_fst_sublist st existing_event)

/-- Helper: the whole matching loop preserves the total count of events. -/
theorem foldl_matchStep_length (l : List HubSpotEvent)
    (st : List FirstEventPayload × List FirstEventPayload) :
    (l.foldl matchStep st).1.length + (l.foldl matchStep st).2.length
      = st.1.length + st.2.length := by
  induction l generalizing st with
  | nil => rfl
  | cons existing_event rest ih =>
    exact (ih (matchStep st existing_event)).trans (matchStep_length st existing_event)

/-- C1: a destination record is in the run's season scope
(`existingHubspotEvents`, the filter at the top of `process_events`) iff it
is one of the fetched HubSpot records and either its program code is `FRC`
and its `event_season_year` custom property equals the resolved FRC season
year, or its program code is not `FRC` and that property equals the resolved
year minus one; every other record is excluded from the run. -/
theorem season_scope_spec (hubspot_events : List HubSpotEvent)
    (frc_season_year : Int) (event : HubSpotEvent) :
    event ∈ existingHubspotEvents hubspot_events frc_season_year ↔
      event ∈ hubspot_events ∧
        ((event.event_type = "FRC" ∧
            get_custom_property event.custom_properties "event_season_year"
              = some (toString frc_season_year)) ∨
         (event.event_type ≠ "FRC" ∧
            get_custom_property event.custom_properties "event_season_year"
              = some (toString (frc_season_year - 1)))) := by
  simp [existingHubspotEvents, List.mem_filter, Bool.or_eq_true, Bool.and_eq_true,
    beq_iff_eq, bne_iff_ne]

/-- C9: custom-property lookup returns a value exactly when the bag is
present and exactly one entry carries the key (with that value); a missing
bag, an absent key, or a duplicated key all give `none`.  The function is
total, so no input can make it raise. -/
theorem get_custom_property_spec (custom_properties : Option (List PropEntry))
    (key v : String) :
    get_custom_property custom_properties key = some v ↔
      ∃ props, custom_properties = some props ∧
        props.filter (fun entry => entry.name == key) = [⟨key, v⟩] := by
  cases custom_properties with
  | none => simp [get_custom_property]
  | some props =>
    rcases hf : props.filter (fun entry => entry.name == key) with _ | ⟨a, _ | ⟨b, t⟩⟩
    · simp [get_custom_property, hf]
    · have hmem : a ∈ props.filter (fun entry => entry.name == key) := by
        rw [hf]
        exact List.mem_singleton_self a
      have ha : a.name = key := by
        have hp := (List.mem_filter.mp hmem).2
        simpa using hp
      have hlhs : get_custom_property (some props) key = some a.value := by
        simp [get_custom_property, hf]
      rw [hlhs]
      constructor
      · intro h
        have hv : a.value = v := Option.some.inj h
        have ha2 : a = ⟨key, v⟩ := by
          rw [← ha, ← hv]
        refine ⟨props, rfl, ?_⟩
        rw [hf, ha2]
      · rintro ⟨props2, hp2, hfil⟩
        injection hp2 with hp2
        subst hp2
        rw [hf] at hfil
        injection hfil with h1 h2
        rw [h1]
    · simp [get_custom_property, hf]


/-- C2: one iteration of the matching loop over the current candidate list:
zero matching source events leave the state untouched (the destination
record gets no action); exactly one match appends the merged update payload
and erases the matched source event from the candidate list; more than one
match (reported on the console, outside this embedding) leaves the state
untouched, so the destination record is skipped and all matching source
events stay create candidates. -/
theorem match_case_analysis (first_events events_to_update : List FirstEventPayload)
    (existing_event : HubSpotEvent) :
    (first_events.filter
        (fun event => event.externalEventId == existing_event.external_event_id) = [] →
      matchStep (first_events, events_to_update) existing_event
        = (first_events, events_to_update)) ∧
    (∀ first_event,
      first_events.filter
          (fun event => event.externalEventId == existing_event.external_event_id)
        = [first_event] →
      matchStep (first_events, events_to_update) existing_event
        = (first_events.erase first_event,
           events_to_update ++ [updatePayload first_event existing_event])) ∧
    (2 ≤ (first_events.filter
        (fun event => event.externalEventId == existing_event.external_event_id)).length →
      matchStep (first_events, events_to_update) existing_event
        = (first_events, events_to_update)) := by
  refine ⟨?_, ?_, ?_⟩
  · intro h
    simp [matchStep, h]
  · intro first_event h
    simp [matchStep, h]
  · intro h
    rcases hf : first_events.filter
        (fun event => event.externalEventId == existing_event.external_event_id)
      with _ | ⟨a, _ | ⟨b, t⟩⟩
    · simp [matchStep, hf]
    · rw [hf] at h
      simp at h
    · simp [matchStep, hf]

/-- Witness for C2: a concrete single-match iteration pairs the event and
removes it from the candidate list. -/
theorem match_case_analysis_witness :
    matchStep ([goodPayload], []) hsMatching
      = ([], [updatePayload goodPayload hsMatching]) := by
  have h := (match_case_analysis [goodPayload] [] hsMatching).2.1 goodPayload (by decide)
  simpa using h

/-- C3: for a matched pair, the update payload equals the source payload
with only the destination object id and the destination's stored organizer
overwritten (the external event id is also rewritten, but to the very value
the pair matched on, so it is unchanged); the create payloads are exactly
the source events left over after matching, carried verbatim, and when no
incoming source payload carries an object id, no create payload does. -/
theorem merge_payload_spec (first_event : FirstEventPayload)
    (existing_event : HubSpotEvent)
    (h : first_event.externalEventId = existing_event.external_event_id) :
    updatePayload first_event existing_event
      = { first_event with
          objectId := some existing_event.object_id,
          eventOrganizer := existing_event.event_organizer } ∧
    ∀ (first_events : List FirstEventPayload) (hubspot_events : List HubSpotEvent)
      (frc_season_year : Int),
      (process_events first_events hubspot_events frc_season_year).events_to_create
        = (process_events first_events hubspot_events frc_season_year).first_events_final ∧
      ((∀ p ∈ first_events, p.objectId = none) →
        ∀ p ∈ (process_events first_events hubspot_events frc_season_year).events_to_create,
          p.objectId = none) := by
  refine ⟨?_, ?_⟩
  · unfold updatePayload
    rw [← h]
  · intro first_events hubspot_events frc_season_year
    refine ⟨rfl, ?_⟩
    intro hall p hp
    have hsub := foldl_matchStep_sublist
      (existingHubspotEvents hubspot_events frc_season_year) (first_events, [])
    have hmem : p ∈ first_events := hsub.subset (by simpa [process_events] using hp)
    exact hall p hmem

/-- Witness for C3 at a concrete matched pair. -/
theorem merge_payload_spec_witness :
    updatePayload goodPayload hsMatching
      = { goodPayload with
          objectId := some "obj-77",
          eventOrganizer := "FIRST in Alabama (HubSpot)" } :=
  (merge_payload_spec goodPayload hsMatching rfl).1

/-- C10: `process_events` consumes the caller's `first_events` list in
place: the list it leaves behind is exactly the create-candidate list, it is
a sublist of the original list (matching only ever removes paired events),
and the number of removed events equals the number of update payloads
produced — so after a run with any pairings the caller no longer holds the
full fetched set. -/
theorem process_events_in_place (first_events : List FirstEventPayload)
    (hubspot_events : List HubSpotEvent) (frc_season_year : Int) :
    (process_events first_events hubspot_events frc_season_year).first_events_final
      = (process_events first_events hubspot_events frc_season_year).events_to_create ∧
    ((process_events first_events hubspot_events frc_season_year).first_events_final.Sublist
      first_events) ∧
    (process_events first_events hubspot_events frc_season_year).first_events_final.length
        + (process_events first_events hubspot_events frc_season_year).events_to_update.length
      = first_events.length := by
  refine ⟨rfl, ?_, ?_⟩
  · have hsub := foldl_matchStep_sublist
      (existingHubspotEvents hubspot_events frc_season_year) (first_events, [])
    simpa [process_events] using hsub
  · have hlen := foldl_matchStep_length
      (existingHubspotEvents hubspot_events frc_season_year) (first_events, [])
    simpa [process_events] using hlen

/-- C4 counterexample: `rawGood` is well-formed (it normalizes on its own),
but batching it together with `rawBad` — whose start date is absent — makes
the whole normalization fail (`none` models the uncaught `KeyError`):
the bad record is not dropped and the good record is not produced. -/
theorem normalizer_drop_counterexample :
    normalizeESEvent fromisoformatFix rawGood = some goodPayload ∧
    get_elastic_search_events fromisoformatFix [rawGood] = some [goodPayload] ∧
    get_elastic_search_events fromisoformatFix [rawBad, rawGood] = none :=
  ⟨rfl, rfl, rfl⟩

/-- C4 amended: normalization is all-or-nothing — the batch fails exactly
when some record's start or end time is absent or unparsable, and when it
succeeds every record of the batch is produced (one output per input). -/
theorem normalizer_all_or_nothing (fromisoformat : String → Option Int)
    (events : List RawESEvent) :
    (get_elastic_search_events fromisoformat events = none ↔
      ∃ e ∈ events, normalizeESEvent fromisoformat e = none) ∧
    ∀ out, get_elastic_search_events fromisoformat events = some out →
      out.length = events.length := by
  unfold get_elastic_search_events
  induction events with
  | nil =>
    refine ⟨by simp [normalizeAll], ?_⟩
    intro out h
    injection h with h
    subst h
    rfl
  | cons e rest ih =>
    refine ⟨⟨?_, ?_⟩, ?_⟩
    · intro h
      cases hn : normalizeESEvent fromisoformat e with
      | none => exact ⟨e, List.mem_cons_self e rest, hn⟩
      | some p =>
        cases hr : normalizeAll fromisoformat rest with
        | none =>
          obtain ⟨e2, he2, hne2⟩ := ih.1.mp hr
          exact ⟨e2, List.mem_cons_of_mem e he2, hne2⟩
        | some ps =>
          simp [normalizeAll, hn, hr] at h
    · rintro ⟨e2, he2, hne2⟩
      rcases List.mem_cons.mp he2 with he | he
      · subst he
        cases hr : normalizeAll fromisoformat rest <;>
          simp [normalizeAll, hne2, hr]
      · have hrn : normalizeAll fromisoformat rest = none := ih.1.mpr ⟨e2, he, hne2⟩
        cases hn : normalizeESEvent fromisoformat e <;>
          simp [normalizeAll, hn, hrn]
    · intro out h
      cases hn : normalizeESEvent fromisoformat e with
      | none => simp [normalizeAll, hn] at h
      | some p =>
        cases hr : normalizeAll fromisoformat rest with
        | none => simp [normalizeAll, hn, hr] at h
        | some ps =>
          simp only [normalizeAll, hn, hr] at h
          injection h with h
          rw [← h]
          simp [ih.2 ps hr]

/-- Witness for C4's amended theorem: one record with an absent start date
fails the whole batch. -/
theorem normalizer_all_or_nothing_witness :
    get_elastic_search_events fromisoformatFix [rawBad] = none :=
  (normalizer_all_or_nothing fromisoformatFix [rawBad]).1.mpr
    ⟨rawBad, List.mem_singleton_self rawBad, rfl⟩

/-- C5 counterexample: a raw event carrying express URL "http://y" and
legacy deeplink "http://x" still normalizes with an empty volunteer URL —
the express and deeplink fields do not influence the output at all —
refuting the claimed preference order, which demands "http://y" here. -/
theorem volunteer_url_counterexample :
    normalizeESEvent fromisoformatFix rawUrls = some goodPayload ∧
    lookupCustomProp goodPayload.customProperties "event_volunteer_url"
      = some (PVal.s "") ∧
    some (PVal.s "") ≠ some (PVal.s "http://y") :=
  ⟨rfl, rfl, by decide⟩

/-- C5 amended: the normalized volunteer URL custom property is always the
empty string, whatever the raw event carries. -/
theorem volunteer_url_constant (fromisoformat : String → Option Int)
    (e : RawESEvent) (p : FirstEventPayload)
    (h : normalizeESEvent fromisoformat e = some p) :
    lookupCustomProp p.customProperties "event_volunteer_url"
      = some (PVal.s "") := by
  unfold normalizeESEvent at h
  split at h
  · split at h
    · injection h with h
      subst h
      rfl
    · cases h
  · cases h

/-- Witness for C5's amended theorem. -/
theorem volunteer_url_constant_witness :
    lookupCustomProp goodPayload.customProperties "event_volunteer_url"
      = some (PVal.s "") :=
  volunteer_url_constant fromisoformatFix rawGood goodPayload rfl

/-- C6 counterexample: for the spec's concrete input (venue "Hall A", blank
address lines, city "Springfield", postal code "12345") the normalized
address property is the raw first address line verbatim — the empty string
here — not the claimed multi-line assembly (region instantiated to "AL, "). -/
theorem address_counterexample :
    normalizeESEvent fromisoformatFix rawAddr = some addrPayload ∧
    lookupCustomProp addrPayload.customProperties "event_address"
      = some (PVal.s "") ∧
    some (PVal.s "") ≠ some (PVal.s "Hall A\nSpringfield, AL, 12345") :=
  ⟨rfl, rfl, by decide⟩

/-- C6 amended: the normalized address custom property is the raw event's
first address line verbatim; venue, city and postal code travel in their own
custom properties and no multi-line assembly is performed. -/
theorem address_verbatim (fromisoformat : String → Option Int)
    (e : RawESEvent) (p : FirstEventPayload)
    (h : normalizeESEvent fromisoformat e = some p) :
    lookupCustomProp p.customProperties "event_address"
      = some (PVal.s e.event_address1) := by
  unfold normalizeESEvent at h
  split at h
  · split at h
    · injection h with h
      subst h
      rfl
    · cases h
  · cases h

/-- Witness for C6's amended theorem. -/
theorem address_verbatim_witness :
    lookupCustomProp addrPayload.customProperties "event_address"
      = some (PVal.s "") :=
  address_verbatim fromisoformatFix rawAddr addrPayload rfl

/-- C7 counterexample: two raw hits with the same
(program code, season year, event code) triple but different content BOTH
survive normalization — there is no first-occurrence dedup — and they share
one identity key. -/
theorem identity_dedup_counterexample :
    get_elastic_search_events fromisoformatFix [rawGood, rawDup]
      = some [goodPayload, dupPayload] ∧
    goodPayload.externalEventId = dupPayload.externalEventId ∧
    goodPayload ≠ dupPayload :=
  ⟨rfl, rfl, by decide⟩

/-- C7 amended: duplicate-triple records are both retained (no dedup) and
share one identity key, and when an existing destination record carries that
key the ambiguous-match branch fires: the matching loop leaves both
duplicates in the candidate list (both stay creates) and records no pair. -/
theorem identity_duplicates_spec (fromisoformat : String → Option Int)
    (e1 e2 : RawESEvent) (p1 p2 : FirstEventPayload)
    (ht : e1.event_type = e2.event_type) (hs : e1.event_season = e2.event_season)
    (hc : e1.event_code = e2.event_code)
    (h1 : normalizeESEvent fromisoformat e1 = some p1)
    (h2 : normalizeESEvent fromisoformat e2 = some p2) :
    get_elastic_search_events fromisoformat [e1, e2] = some [p1, p2] ∧
    p1.externalEventId = p2.externalEventId ∧
    ∀ existing_event : HubSpotEvent,
      existing_event.external_event_id = p1.externalEventId →
      matchStep ([p1, p2], []) existing_event = ([p1, p2], []) := by
  have hid : p1.externalEventId = p2.externalEventId := by
    rw [normalizeESEvent_extId fromisoformat e1 p1 h1,
        normalizeESEvent_extId fromisoformat e2 p2 h2, ht, hs, hc]
  refine ⟨?_, hid, ?_⟩
  · simp [get_elastic_search_events, normalizeAll, h1, h2]
  · intro existing_event hex
    have hb1 : (p1.externalEventId == existing_event.external_event_id) = true := by
      rw [beq_iff_eq, hex]
    have hb2 : (p2.externalEventId == existing_event.external_event_id) = true := by
      rw [beq_iff_eq, hex]
      exact hid.symm
    have hfil : [p1, p2].filter
        (fun event => event.externalEventId == existing_event.external_event_id)
        = [p1, p2] := by
      simp [List.filter, hb1, hb2]
    simp [matchStep, hfil]

/-- Witness for C7's amended theorem at the concrete duplicate pair. -/
theorem identity_duplicates_spec_witness :
    get_elastic_search_events fromisoformatFix [rawGood, rawDup]
      = some [goodPayload, dupPayload] ∧
    matchStep ([goodPayload, dupPayload], []) hsMatching
      = ([goodPayload, dupPayload], []) := by
  have h := identity_duplicates_spec fromisoformatFix rawGood rawDup
    goodPayload dupPayload rfl rfl rfl rfl rfl
  exact ⟨h.1, h.2.2 hsMatching rfl⟩

/-- C8 counterexample: on a fully successful run the orchestrator's step
trace is load_token, fetch_destination_records, resolve_season,
fetch_source_events, reconcile, submit — the destination records are paged
in BEFORE the season is resolved and the source events fetched — which
differs from the claimed order resolve_season, fetch_source_events,
fetch_destination_records, reconcile, submit. -/
theorem orchestrator_order_counterexample :
    mainTrace envRun = fullStepOrder ∧ mainTrace envRun ≠ claimedStepOrder :=
  ⟨rfl, by decide⟩

/-- C8 amended: every run attempts load_token, fetch_destination_records,
resolve_season, fetch_source_events, reconcile, submit in this fixed order
with no back-edges, aborting at the first step whose required input is
missing: every trace is a prefix of the full order, a missing token aborts
right after the token load, and a failed season fetch aborts right after the
season-resolution attempt. -/
theorem orchestrator_order_spec :
    (∀ env : Env, mainTrace env <+: fullStepOrder) ∧
    (∀ (hubspot_events : List HubSpotEvent)
        (seasons : Option (List (String × Int)))
        (raw_events : List RawESEvent) (fromisoformat : String → Option Int),
      mainTrace ⟨none, hubspot_events, seasons, raw_events, fromisoformat⟩
        = [Step.load_token]) ∧
    (∀ (api_token : String) (hubspot_events : List HubSpotEvent)
        (raw_events : List RawESEvent) (fromisoformat : String → Option Int),
      mainTrace ⟨some api_token, hubspot_events, none, raw_events, fromisoformat⟩
        = [Step.load_token, Step.fetch_destination_records, Step.resolve_season]) := by
  refine ⟨?_, ?_, ?_⟩
  · intro env
    unfold mainTrace
    split
    · exact ⟨_, rfl⟩
    · split
      · exact ⟨_, rfl⟩
      · split
        · exact ⟨_, rfl⟩
        · split
          · exact ⟨_, rfl⟩
          · dsimp only
            split
            · exact ⟨_, rfl⟩
            · exact ⟨_, rfl⟩
  · intro hubspot_events seasons raw_events fromisoformat
    rfl
  · intro api_token hubspot_events raw_events fromisoformat
    rfl
